import Mathlib

/-!
Verification of the match_builder_backend tournament engine.

This file gives a shallow embedding of the scheduling, standings and
winner-resolution code of the repository (controllers/authController.js and
the League mongoose model) and proves or refutes the specification claims
about it.  JS numbers that the code validates to non-negative integers are
modelled as Nat, signed quantities (goal difference, timestamps) as Int,
fallible operations as Except.  Mongoose Date values are modelled as a pair
of a millisecond timestamp and the calendar year it falls in (getFullYear is
only ever applied to startDate and endDate, where just the year is needed).
-/

/-- A fixture, mirroring the mongoose match subdocument (models/League.js,
matchSchema).  The schema `date` field and the subdocument id are not carried:
no modelled operation reads them (result submission is modelled as addressed
by matchNumber, which is unique within a generated schedule). -/
structure MatchRec where
  homeTeam : String
  awayTeam : String
  homeGoals : Nat
  awayGoals : Nat
  played : Bool
  matchNumber : Nat
  roundNumber : Nat
  groupName : String
  deriving DecidableEq, Repr

/- ----------------------------------------------------------------- -/
/- Scheduling: authController.js, generateMatches (lines 1414-1472)   -/
/- ----------------------------------------------------------------- -/

/-- JS lines 1437-1438 and 1443-1444: shift the first element off and push it
to the end. -/
def rotateLeft1 (l : List String) : List String :=
  match l with
  | [] => []
  | x :: xs => xs ++ [x]

/-- JS line 1448: pop the last element and unshift it to the front. -/
def rotateRight1 (l : List String) : List String :=
  match l.getLast? with
  | none => l
  | some x => x :: l.dropLast

/-- The rotated team sequence used in a given round (JS lines 1431-1449):
round 1 is unrotated; for round > 1 the code rotates left once, then
(round - 1) % (numTeams - 1) more times, then rotates right once. -/
def rotatedForRound (names : List String) (round : Nat) : List String :=
  if 1 < round then
    rotateRight1 (rotateLeft1^[(round - 1) % (names.length - 1)] (rotateLeft1 names))
  else names

/-- The pairs of one round (JS lines 1452-1457): position i is paired with
position length - 1 - i, for i below half the length. -/
def roundMatchesFor (names : List String) (round : Nat) : List (String × String) :=
  (List.range ((rotatedForRound names round).length / 2)).map fun i =>
    ((rotatedForRound names round).getD i "",
     (rotatedForRound names round).getD ((rotatedForRound names round).length - 1 - i) "")

/-- JS line 1420: 7 rounds for 10 or more teams, otherwise numTeams - 1 when
even and numTeams when odd. -/
def maxRounds (numTeams : Nat) : Nat :=
  if numTeams ≥ 10 then 7
  else if numTeams % 2 = 0 then numTeams - 1 else numTeams

/-- All (roundNumber, home, away) triples in emission order
(JS lines 1428-1458). -/
def allPairs (names : List String) : List (Nat × String × String) :=
  (List.range (maxRounds names.length)).flatMap fun r =>
    (roundMatchesFor names (r + 1)).map fun p => (r + 1, p.1, p.2)

/-- The matchNumber counter (JS lines 1424 and 1460-1471): each emitted pair
becomes a match record numbered sequentially from k. -/
def numberFrom (k : Nat) : List (Nat × String × String) → List MatchRec
  | [] => []
  | (r, h, a) :: rest =>
    { homeTeam := h, awayTeam := a, homeGoals := 0, awayGoals := 0,
      played := false, matchNumber := k, roundNumber := r, groupName := "" }
      :: numberFrom (k + 1) rest

/-- The full fixture list produced by generateMatches for a team-name list
(JS lines 1414-1472); the counter starts at 1. -/
def generateMatches (names : List String) : List MatchRec :=
  numberFrom 1 (allPairs names)

/-- How many matches of the list a team appears in, as home or away side. -/
def teamMatchCount (ms : List MatchRec) (name : String) : Nat :=
  (ms.filter fun m => m.homeTeam == name || m.awayTeam == name).length

/-- How many matches of the list pit the two given teams against each other,
in either orientation. -/
def pairMeetCount (ms : List MatchRec) (a b : String) : Nat :=
  (ms.filter fun m =>
    (m.homeTeam == a && m.awayTeam == b) || (m.homeTeam == b && m.awayTeam == a)).length

/- ----------------------------------------------------------------- -/
/- Data model: models/League.js                                       -/
/- ----------------------------------------------------------------- -/

/-- A team row of the standings table (models/League.js, teamSchema).
The validated goal counts are non-negative, so they are Nat; the goal
difference can be negative, so it is Int. -/
structure Team where
  name : String
  logo : String
  played : Nat
  won : Nat
  drawn : Nat
  lost : Nat
  goalsFor : Nat
  goalsAgainst : Nat
  goalDifference : Int
  points : Nat
  deriving DecidableEq, Repr

/-- Participant approval status (models/League.js, participantSchema). -/
inductive PStatus
  | pending
  | approved
  | rejected
  deriving DecidableEq, Repr

/-- A participant subdocument; the userId ObjectId is modelled as a Nat. -/
structure Participant where
  userId : Nat
  teamName : String
  teamLogoUrl : String
  status : PStatus
  deriving DecidableEq, Repr

inductive LeagueStatus
  | draft
  | active
  | completed
  | cancelled
  deriving DecidableEq, Repr

/-- A mongoose Date, reduced to the two things the code reads from it: the
millisecond timestamp used in comparisons and the calendar year that
getFullYear reports (getFullYear is applied only to startDate and endDate,
for the season label). -/
structure DateVal where
  time : Int
  year : Int
  deriving DecidableEq, Repr

/-- The winner record; an empty teamName means no winner has been crowned
(that is exactly the falsy check the code performs). -/
structure Winner where
  teamName : String
  userId : Option Nat
  teamLogo : String
  awardedAt : Option Int
  deriving DecidableEq, Repr

/-- An entry of the previousWinners history. -/
structure PrevWinner where
  teamName : String
  userId : Option Nat
  teamLogo : String
  awardedAt : Option Int
  season : String
  deriving DecidableEq, Repr

/-- The League aggregate (models/League.js, leagueSchema).  Fields only the
surrounding glue reads (admin, description, logo url, maxParticipants,
createdAt) are omitted; authorization is delegated to the caller per the
spec, so every modelled operation is taken as invoked by the league admin. -/
structure League where
  name : String
  startDate : DateVal
  endDate : DateVal
  participants : List Participant
  teams : List Team
  matchList : List MatchRec
  status : LeagueStatus
  joinCode : String
  winner : Winner
  isCelebrating : Bool
  celebrationEnds : Option Int
  previousWinners : List PrevWinner
  deriving DecidableEq, Repr

/- ----------------------------------------------------------------- -/
/- StandingsEngine: recalculateStandings, lines 1501-1604             -/
/- ----------------------------------------------------------------- -/

/-- JS lines 1505-1514: zero every counter, keeping name and logo. -/
def resetTeam (t : Team) : Team :=
  { t with
    played := 0, won := 0, drawn := 0, lost := 0, goalsFor := 0,
    goalsAgainst := 0, goalDifference := 0, points := 0 }

/-- The home side of the JS lines 1523-1548 update of one played match. -/
def updHome (m : MatchRec) (t : Team) : Team :=
  { t with
    played := t.played + 1,
    goalsFor := t.goalsFor + m.homeGoals,
    goalsAgainst := t.goalsAgainst + m.awayGoals,
    goalDifference :=
      ((t.goalsFor + m.homeGoals : Nat) : Int) - ((t.goalsAgainst + m.awayGoals : Nat) : Int),
    won := if m.homeGoals > m.awayGoals then t.won + 1 else t.won,
    lost := if m.awayGoals > m.homeGoals then t.lost + 1 else t.lost,
    drawn := if m.homeGoals = m.awayGoals then t.drawn + 1 else t.drawn,
    points := if m.homeGoals > m.awayGoals then t.points + 3
      else if m.awayGoals > m.homeGoals then t.points else t.points + 1 }

/-- The away side of the JS lines 1523-1548 update of one played match. -/
def updAway (m : MatchRec) (t : Team) : Team :=
  { t with
    played := t.played + 1,
    goalsFor := t.goalsFor + m.awayGoals,
    goalsAgainst := t.goalsAgainst + m.homeGoals,
    goalDifference :=
      ((t.goalsFor + m.awayGoals : Nat) : Int) - ((t.goalsAgainst + m.homeGoals : Nat) : Int),
    won := if m.awayGoals > m.homeGoals then t.won + 1 else t.won,
    lost := if m.homeGoals > m.awayGoals then t.lost + 1 else t.lost,
    drawn := if m.homeGoals = m.awayGoals then t.drawn + 1 else t.drawn,
    points := if m.awayGoals > m.homeGoals then t.points + 3
      else if m.homeGoals > m.awayGoals then t.points else t.points + 1 }

/-- Array.prototype.find followed by in-place mutation: rewrite the first
team carrying the given name, leave everything else in place. -/
def updateFirst (name : String) (f : Team → Team) : List Team → List Team
  | [] => []
  | t :: ts => if t.name = name then f t :: ts else t :: updateFirst name f ts

/-- JS lines 1517-1551: a played match updates the first team named
homeTeam and the first team named awayTeam, provided both lookups succeed
(both find calls run before any mutation, and neither update changes a
name, so sequencing the two rewrites is equivalent). -/
def applyMatch (teams : List Team) (m : MatchRec) : List Team :=
  if m.played && (teams.any fun t => t.name == m.homeTeam)
      && (teams.any fun t => t.name == m.awayTeam) then
    updateFirst m.awayTeam (updAway m) (updateFirst m.homeTeam (updHome m) teams)
  else teams

/-- The standings part of recalculateStandings (JS lines 1504-1551): reset
every counter, then fold every match over the table. -/
def recalcTable (teams : List Team) (ms : List MatchRec) : List Team :=
  ms.foldl applyMatch (teams.map resetTeam)

/-- JS string truthiness fallback: a || b is b exactly when a is "". -/
def orElseStr (a b : String) : String := if a = "" then b else a

/-- The standings comparator (JS lines 1560-1564 and model lines 191-195):
a strictly precedes b when it has more points, or equal points and a better
goal difference. -/
def teamLT (a b : Team) : Bool :=
  decide (b.points < a.points ∨
    (a.points = b.points ∧ b.goalDifference < a.goalDifference))

/-- Insert into an already sorted list, before the first element that does
not strictly precede (so existing tied rows stay in front: stability). -/
def insertTeam (t : Team) : List Team → List Team
  | [] => [t]
  | x :: xs => if teamLT x t then x :: insertTeam t xs else t :: x :: xs

/-- Array.prototype.sort with the standings comparator.  JS sort is stable,
and a stable sort by a total preorder has a unique result, so this stable
insertion sort computes exactly the array the engine produces. -/
def sortTeams : List Team → List Team
  | [] => []
  | t :: ts => insertTeam t (sortTeams ts)

/-- The all-zero team row; also the JS-undefined default that array indexing
below can never actually hit (kept total for the shallow embedding). -/
def defaultTeam : Team :=
  { name := "", logo := "", played := 0, won := 0, drawn := 0, lost := 0,
    goalsFor := 0, goalsAgainst := 0, goalDifference := 0, points := 0 }

/-- recalculateStandings (authController.js lines 1501-1604): recompute the
table from scratch, then evaluate the auto-completion clinch.  The float
test (played / total) * 100 >= 95 is modelled as the exact comparison
95 * total <= 100 * played together with 0 < total (in JS, 0 / 0 is NaN and
NaN >= 95 is false); now is the current time in milliseconds.  The JS
indexing sortedTeams[0] and sortedTeams[1] is guarded by the length test, so
the getD default is never reached. -/
def recalculateStandings (now : Int) (lg : League) : League :=
  let teams := recalcTable lg.teams lg.matchList
  let totalMatches := lg.matchList.length
  let playedMatches := (lg.matchList.filter fun m => m.played).length
  if 0 < totalMatches ∧ 95 * totalMatches ≤ 100 * playedMatches
      ∧ lg.status = LeagueStatus.active then
    let sortedTeams := sortTeams teams
    if 2 ≤ sortedTeams.length then
      let leader := sortedTeams.getD 0 defaultTeam
      let second := sortedTeams.getD 1 defaultTeam
      if second.points + (totalMatches - playedMatches) * 3 < leader.points
          ∧ lg.winner.teamName = "" then
        let wp := lg.participants.find? fun p => p.teamName == leader.name
        { lg with
          teams := teams,
          winner := { teamName := leader.name,
                      userId := wp.map fun p => p.userId,
                      teamLogo :=
                        orElseStr leader.logo ((wp.map fun p => p.teamLogoUrl).getD ""),
                      awardedAt := some now },
          isCelebrating := true,
          celebrationEnds := some (now + 259200000),
          status := LeagueStatus.completed }
      else { lg with teams := teams }
    else { lg with teams := teams }
  else { lg with teams := teams }

/- ----------------------------------------------------------------- -/
/- Controller operations                                              -/
/- ----------------------------------------------------------------- -/

inductive GenError
  | leagueStarted
  | insufficientParticipants
  deriving DecidableEq, Repr

/-- Placeholder crest for a team without an uploaded logo (JS line 1403).
Percent-encoding of the seed is not modelled; no claim reads the URL. -/
def dicebearLogo (seed : String) : String :=
  "https://api.dicebear.com/7.x/shapes/svg?seed=" ++ seed ++
    "&backgroundColor=yellow,orange,red,blue,green&size=80"

/-- Zeroed team row built from an approved participant (JS 1399-1412). -/
def teamOfParticipant (p : Participant) : Team :=
  { name := p.teamName,
    logo := if p.teamLogoUrl.trim ≠ "" then p.teamLogoUrl else dicebearLogo p.teamName,
    played := 0, won := 0, drawn := 0, lost := 0, goalsFor := 0,
    goalsAgainst := 0, goalDifference := 0, points := 0 }

/-- The generateMatches controller (authController.js lines 1363-1498) after
the league lookup and admin check: refuse unless the status is draft, then
require at least two approved participants, then replace teams and matches
and mark the league active.  The result is the in-memory document handed to
league.save(); the pre-save hook is modelled separately by saveLeague. -/
def generateMatchesOp (lg : League) : Except GenError League :=
  if lg.status ≠ LeagueStatus.draft then Except.error GenError.leagueStarted
  else
    let approved := lg.participants.filter fun p => p.status == PStatus.approved
    if approved.length < 2 then Except.error GenError.insufficientParticipants
    else
      let teams := approved.map teamOfParticipant
      Except.ok { lg with
        teams := teams,
        matchList := generateMatches (teams.map fun t => t.name),
        status := LeagueStatus.active }

inductive UpdError
  | invalidGoals
  | matchNotFound
  deriving DecidableEq, Repr

/-- JS lines 1669-1671: store the submitted score and mark the match played. -/
def setMatchResult (hg ag : Nat) (m : MatchRec) : MatchRec :=
  { m with homeGoals := hg, awayGoals := ag, played := true }

/-- Rewrite the first match with the given number, leave the rest alone. -/
def updateFirstMatch (num : Nat) (f : MatchRec → MatchRec) :
    List MatchRec → List MatchRec
  | [] => []
  | m :: ms => if m.matchNumber = num then f m :: ms else m :: updateFirstMatch num f ms

/-- The updateMatchResult controller (authController.js lines 1607-1711)
after the admin check, with the match addressed by matchNumber (modelling
the subdocument id, which is unique within a generated schedule).  The goal
inputs are the integers parseInt produced; an unparsable value is rejected
by the same guard as a negative one and is not modelled separately.  The
guard runs before anything is looked up or written; on success the match is
rewritten and the standings recomputed with the clinch evaluation. -/
def updateMatchResultOp (now : Int) (lg : League) (num : Nat) (hg ag : Int) :
    Except UpdError League :=
  if hg < 0 ∨ ag < 0 then Except.error UpdError.invalidGoals
  else if lg.matchList.any fun m => m.matchNumber == num then
    Except.ok (recalculateStandings now
      { lg with matchList := updateFirstMatch num (setMatchResult hg.toNat ag.toNat) lg.matchList })
  else Except.error UpdError.matchNotFound

/-- The stored document after an updateMatchResult request: the controller
only saves on success, so a failed request leaves the database untouched. -/
def dbAfterUpdate (now : Int) (lg : League) (num : Nat) (hg ag : Int) : League :=
  match updateMatchResultOp now lg num hg ag with
  | Except.ok lg2 => lg2
  | Except.error _ => lg

inductive WinError
  | teamNotFound
  deriving DecidableEq, Repr

/-- The season tag, start year dash end year (JS line 1910, model line 217). -/
def seasonLabel (lg : League) : String :=
  toString lg.startDate.year ++ "-" ++ toString lg.endDate.year

/-- The setLeagueWinner controller (authController.js lines 1854-1939) after
the admin check: requires the team name among the participants, overwrites
the winner, starts a 3-day celebration, marks the league completed and
appends a previousWinners entry.  teamLogo is the optional explicit
override; an absent and an empty override behave identically (both falsy),
so it is a String with "" for absent. -/
def setLeagueWinnerOp (now : Int) (lg : League) (teamName teamLogo : String) :
    Except WinError League :=
  match lg.participants.find? fun p => p.teamName == teamName with
  | none => Except.error WinError.teamNotFound
  | some wp =>
    let wt := lg.teams.find? fun t => t.name == teamName
    let logo := orElseStr teamLogo
      (orElseStr ((wt.map fun t => t.logo).getD "") wp.teamLogoUrl)
    Except.ok { lg with
      winner := { teamName := teamName, userId := some wp.userId,
                  teamLogo := logo, awardedAt := some now },
      isCelebrating := true,
      celebrationEnds := some (now + 259200000),
      status := LeagueStatus.completed,
      previousWinners := lg.previousWinners ++
        [{ teamName := teamName, userId := some wp.userId, teamLogo := logo,
             awardedAt := some now, season := seasonLabel lg }] }

/- ----------------------------------------------------------------- -/
/- The League pre-save hook: models/League.js lines 170-228           -/
/- ----------------------------------------------------------------- -/

/-- The date-derived status (model lines 175-187): draft while no matches
exist, otherwise draft / active / completed by comparing now with the start
and end dates. -/
def derivedStatus (now : Int) (lg : League) : LeagueStatus :=
  if lg.matchList.isEmpty then LeagueStatus.draft
  else if now < lg.startDate.time then LeagueStatus.draft
  else if now ≤ lg.endDate.time then LeagueStatus.active
  else LeagueStatus.completed

/-- The pre-save hook (model lines 170-228): re-derive the status from the
dates, auto-crown a winner when the derived status is completed, none is
set and the best-ranked team has positive points, then clear an expired
celebration.  Random join-code generation (lines 171-173) is not modelled:
no claim reads the join code.  The hook assigns this.status before reading
it in the crowning condition, so the condition tests the derived status. -/
def saveLeague (now : Int) (lg : League) : League :=
  let ds := derivedStatus now lg
  let lg2 :=
    if ds = LeagueStatus.completed ∧ lg.winner.teamName = "" ∧ lg.teams ≠ [] then
      let sortedTeams := sortTeams lg.teams
      let winnerTeam := sortedTeams.getD 0 defaultTeam
      if 0 < sortedTeams.length ∧ 0 < winnerTeam.points then
        let wp := lg.participants.find? fun p => p.teamName == winnerTeam.name
        { lg with
          status := ds,
          winner := { teamName := winnerTeam.name,
                      userId := wp.map fun p => p.userId,
                      teamLogo :=
                        orElseStr winnerTeam.logo ((wp.map fun p => p.teamLogoUrl).getD ""),
                      awardedAt := some now },
          isCelebrating := true,
          celebrationEnds := some (now + 259200000),
          previousWinners := lg.previousWinners ++
            [{ teamName := winnerTeam.name,
                 userId := wp.map fun p => p.userId,
                 teamLogo :=
                   orElseStr winnerTeam.logo ((wp.map fun p => p.teamLogoUrl).getD ""),
                 awardedAt := some now, season := seasonLabel lg }] }
      else { lg with status := ds }
    else { lg with status := ds }
  if lg2.isCelebrating &&
      (match lg2.celebrationEnds with | some e => decide (e < now) | none => false) then
    { lg2 with isCelebrating := false }
  else lg2

/-- The pointwise standings invariant the spec states for every team row. -/
def standInv (t : Team) : Prop :=
  t.points = 3 * t.won + t.drawn ∧
  t.goalDifference = (t.goalsFor : Int) - (t.goalsAgainst : Int)

/- ----------------------------------------------------------------- -/
/- Concrete instances used by example theorems and witnesses          -/
/- ----------------------------------------------------------------- -/

/-- A zeroed team row. -/
def mkTeam (nm lg : String) : Team :=
  { name := nm, logo := lg, played := 0, won := 0, drawn := 0, lost := 0,
    goalsFor := 0, goalsAgainst := 0, goalDifference := 0, points := 0 }

/-- A fixture record. -/
def mkMatch (home away : String) (hg ag : Nat) (pl : Bool) (num rnd : Nat) : MatchRec :=
  { homeTeam := home, awayTeam := away, homeGoals := hg, awayGoals := ag,
    played := pl, matchNumber := num, roundNumber := rnd, groupName := "" }

/-- The schema-default winner record: no winner crowned yet. -/
def emptyWinner : Winner :=
  { teamName := "", userId := none, teamLogo := "", awardedAt := none }

/-- An approved participant without an uploaded logo. -/
def mkParticipant (uid : Nat) (tn : String) : Participant :=
  { userId := uid, teamName := tn, teamLogoUrl := "", status := PStatus.approved }

/-- A two-team active league whose single match has been played 1-0, with no
winner yet: the clinch condition of recalculateStandings fires on it. -/
def lgClinch : League :=
  { name := "L",
    startDate := { time := 0, year := 2024 },
    endDate := { time := 1000, year := 2025 },
    participants := [mkParticipant 1 "A", mkParticipant 2 "B"],
    teams := [mkTeam "A" "logoA", mkTeam "B" "logoB"],
    matchList := [mkMatch "A" "B" 1 0 true 1 1],
    status := LeagueStatus.active, joinCode := "JC",
    winner := emptyWinner, isCelebrating := false, celebrationEnds := none,
    previousWinners := [] }

/-- The standings row of team A after recomputing lgClinch. -/
def rowA : Team :=
  { name := "A", logo := "logoA", played := 1, won := 1, drawn := 0, lost := 0,
    goalsFor := 1, goalsAgainst := 0, goalDifference := 1, points := 3 }

/-- The standings row of team B after recomputing lgClinch. -/
def rowB : Team :=
  { name := "B", logo := "logoB", played := 1, won := 0, drawn := 0, lost := 1,
    goalsFor := 0, goalsAgainst := 1, goalDifference := -1, points := 0 }

/-- A league still marked draft that already carries a fixture list: the
persisted combination the pre-save hook produces for a scheduled league
whose start date lies in the future. -/
def lgDraftScheduled : League :=
  { name := "D",
    startDate := { time := 100, year := 2024 },
    endDate := { time := 200, year := 2024 },
    participants := [mkParticipant 1 "A", mkParticipant 2 "B"],
    teams := [mkTeam "A" "", mkTeam "B" ""],
    matchList := [mkMatch "A" "B" 0 0 false 1 1],
    status := LeagueStatus.draft, joinCode := "JC",
    winner := emptyWinner, isCelebrating := false, celebrationEnds := none,
    previousWinners := [] }

/-- The same league with status completed, as a crowning path would write
it before saving. -/
def lgCompletedEarly : League :=
  { lgDraftScheduled with status := LeagueStatus.completed }

/-- A league already past its end date with a clear points leader and no
winner set: the pre-save hook auto-crowns on it. -/
def lgSeasonOver : League :=
  { name := "S",
    startDate := { time := 0, year := 2024 },
    endDate := { time := 10, year := 2025 },
    participants := [mkParticipant 1 "A", mkParticipant 2 "B"],
    teams := [rowA, rowB],
    matchList := [mkMatch "A" "B" 1 0 true 1 1],
    status := LeagueStatus.active, joinCode := "JC",
    winner := emptyWinner, isCelebrating := false, celebrationEnds := none,
    previousWinners := [] }

/-- The league setLeagueWinnerOp 0 lgClinch "A" "" produces. -/
def lgManualOut : League :=
  { lgClinch with
    winner := { teamName := "A", userId := some 1, teamLogo := "logoA",
                awardedAt := some 0 },
    isCelebrating := true,
    celebrationEnds := some 259200000,
    status := LeagueStatus.completed,
    previousWinners := [{ teamName := "A", userId := some 1, teamLogo := "logoA",
                          awardedAt := some 0, season := "2024-2025" }] }

/- ----------------------------------------------------------------- -/
/- Structural lemmas about the scheduler                              -/
/- ----------------------------------------------------------------- -/

theorem rotateLeft1_eq_rotate (l : List String) : rotateLeft1 l = l.rotate 1 := by
  cases l with
  | nil => rfl
  | cons x xs =>
      have h := List.rotate_cons_succ xs x 0
      rw [List.rotate_zero] at h
      simpa [rotateLeft1] using h.symm

theorem iterate_rotateLeft1 (l : List String) : ∀ k, rotateLeft1^[k] l = l.rotate k := by
  intro k
  induction k generalizing l with
  | zero => simp
  | succ k ih =>
      rw [Function.iterate_succ_apply, ih, rotateLeft1_eq_rotate, List.rotate_rotate,
        Nat.add_comm 1 k]

theorem rotateRight1_rotateLeft1 (l : List String) (h : l ≠ []) :
    rotateRight1 (rotateLeft1 l) = l := by
  cases l with
  | nil => exact absurd rfl h
  | cons x xs =>
      show rotateRight1 (xs ++ [x]) = x :: xs
      simp [rotateRight1, List.getLast?_concat, List.dropLast_concat]

/-- The net effect of the rotation dance of JS lines 1435-1449: the sequence
used in round r is the input rotated left by (r - 1) % (numTeams - 1). -/
theorem rotatedForRound_eq_rotate (names : List String) (h : names ≠ []) (r : Nat) :
    rotatedForRound names r = names.rotate ((r - 1) % (names.length - 1)) := by
  unfold rotatedForRound
  by_cases hr : 1 < r
  · simp only [if_pos hr]
    have h1 : rotateLeft1^[(r - 1) % (names.length - 1)] (rotateLeft1 names)
        = rotateLeft1 (rotateLeft1^[(r - 1) % (names.length - 1)] names) := by
      rw [← Function.iterate_succ_apply, Function.iterate_succ_apply']
    have hne2 : rotateLeft1^[(r - 1) % (names.length - 1)] names ≠ [] := by
      rw [iterate_rotateLeft1]
      intro hnil
      apply h
      apply List.length_eq_zero.mp
      have hlen := congrArg List.length hnil
      rwa [List.length_rotate, List.length_nil] at hlen
    rw [h1, rotateRight1_rotateLeft1 _ hne2, iterate_rotateLeft1]
  · simp only [if_neg hr]
    have h0 : r - 1 = 0 := by omega
    rw [h0, Nat.zero_mod, List.rotate_zero]

theorem length_rotatedForRound (names : List String) (h : names ≠ []) (r : Nat) :
    (rotatedForRound names r).length = names.length := by
  rw [rotatedForRound_eq_rotate names h, List.length_rotate]

theorem nodup_rotatedForRound (names : List String) (h : names ≠ []) (hnd : names.Nodup)
    (r : Nat) : (rotatedForRound names r).Nodup := by
  rw [rotatedForRound_eq_rotate names h]
  exact List.nodup_rotate.mpr hnd

theorem roundMatchesFor_length (names : List String) (h : names ≠ []) (r : Nat) :
    (roundMatchesFor names r).length = names.length / 2 := by
  unfold roundMatchesFor
  rw [List.length_map, List.length_range, length_rotatedForRound names h]

theorem roundMatchesFor_getElem? (names : List String) (h : names ≠ []) (r j : Nat)
    (hj : j < names.length / 2) :
    (roundMatchesFor names r)[j]? = some
      ((rotatedForRound names r).getD j "",
       (rotatedForRound names r).getD (names.length - 1 - j) "") := by
  unfold roundMatchesFor
  simp only [length_rotatedForRound names h, List.getElem?_map, List.getElem?_range hj,
    Option.map_some']

/-- Generic: a flatMap whose pieces all have length c has length l.length * c. -/
theorem flatMap_length_const {α β : Type} (c : Nat) (l : List α) (f : α → List β)
    (h : ∀ x ∈ l, (f x).length = c) : (l.flatMap f).length = l.length * c := by
  induction l with
  | nil => simp
  | cons x xs ih =>
      rw [List.flatMap_cons, List.length_append, h x (by simp),
        ih (fun y hy => h y (by simp [hy])), List.length_cons, Nat.succ_mul,
        Nat.add_comm (xs.length * c) c]

/-- Generic: indexing into a flatMap of equal-length pieces. -/
theorem flatMap_getElem?_const {α β : Type} (c : Nat) (hc : 0 < c) (l : List α)
    (f : α → List β) (h : ∀ x ∈ l, (f x).length = c) :
    ∀ i, i < l.length * c →
      (l.flatMap f)[i]? = (l[i / c]?.bind fun x => (f x)[i % c]?) := by
  induction l with
  | nil => intro i hi; simp at hi
  | cons x xs ih =>
      intro i hi
      rw [List.flatMap_cons]
      by_cases hlt : i < c
      · rw [List.getElem?_append, if_pos (by rw [h x (by simp)]; exact hlt),
          Nat.div_eq_of_lt hlt, Nat.mod_eq_of_lt hlt]
        simp
      · have hle : c ≤ i := Nat.le_of_not_lt hlt
        obtain ⟨j, rfl⟩ : ∃ j, i = j + c := ⟨i - c, by omega⟩
        rw [List.getElem?_append_right (by rw [h x (by simp)]; omega), h x (by simp)]
        rw [Nat.add_sub_cancel, Nat.add_div_right _ hc, Nat.add_mod_right]
        rw [ih (fun y hy => h y (by simp [hy])) j (by
          rw [List.length_cons, Nat.succ_mul] at hi; omega)]
        rw [List.getElem?_cons_succ]

theorem numberFrom_length : ∀ (k : Nat) (l : List (Nat × String × String)),
    (numberFrom k l).length = l.length := by
  intro k l
  induction l generalizing k with
  | nil => rfl
  | cons t rest ih => simp [numberFrom, ih]

theorem numberFrom_getElem? :
    ∀ (k : Nat) (l : List (Nat × String × String)) (i : Nat),
    (numberFrom k l)[i]? = l[i]?.map fun t =>
      { homeTeam := t.2.1, awayTeam := t.2.2, homeGoals := 0, awayGoals := 0,
        played := false, matchNumber := k + i, roundNumber := t.1, groupName := "" } := by
  intro k l
  induction l generalizing k with
  | nil => intro i; simp [numberFrom]
  | cons t rest ih =>
      obtain ⟨r, hh, aa⟩ := t
      intro i
      cases i with
      | zero => simp [numberFrom]
      | succ i =>
          simp only [numberFrom, List.getElem?_cons_succ]
          have hk : k + (i + 1) = (k + 1) + i := by omega
          simp only [hk]
          exact ih (k + 1) i

theorem generateMatches_length (names : List String) (h : names ≠ []) :
    (generateMatches names).length = maxRounds names.length * (names.length / 2) := by
  unfold generateMatches allPairs
  rw [numberFrom_length, flatMap_length_const (names.length / 2) _ _
    (fun r _ => by rw [List.length_map, roundMatchesFor_length names h]),
    List.length_range]

/-- Full characterization of the i-th generated match: it is numbered i + 1,
belongs to round i / (n/2) + 1, and pairs positions i % (n/2) and
n - 1 - i % (n/2) of that round's rotation. -/
theorem generateMatches_getElem? (names : List String) (h2 : 2 ≤ names.length) (i : Nat)
    (hi : i < maxRounds names.length * (names.length / 2)) :
    (generateMatches names)[i]? = some
      { homeTeam := (rotatedForRound names (i / (names.length / 2) + 1)).getD
          (i % (names.length / 2)) "",
        awayTeam := (rotatedForRound names (i / (names.length / 2) + 1)).getD
          (names.length - 1 - i % (names.length / 2)) "",
        homeGoals := 0, awayGoals := 0, played := false,
        matchNumber := i + 1,
        roundNumber := i / (names.length / 2) + 1,
        groupName := "" } := by
  have hne : names ≠ [] := by
    intro hnil; rw [hnil] at h2; simp at h2
  have hc : 0 < names.length / 2 := by omega
  unfold generateMatches allPairs
  rw [numberFrom_getElem?]
  rw [flatMap_getElem?_const (names.length / 2) hc _ _
    (fun r _ => by rw [List.length_map, roundMatchesFor_length names hne]) i
    (by rwa [List.length_range])]
  have hdiv : i / (names.length / 2) < maxRounds names.length :=
    (Nat.div_lt_iff_lt_mul hc).mpr hi
  rw [List.getElem?_range hdiv, Option.some_bind, List.getElem?_map,
    roundMatchesFor_getElem? names hne _ _ (Nat.mod_lt i hc)]
  rw [Nat.add_comm 1 i]
  rfl

theorem getD_ne_of_nodup {l : List String} (h : l.Nodup) {a b : Nat}
    (ha : a < l.length) (hb : b < l.length) (hab : a ≠ b) :
    l.getD a "" ≠ l.getD b "" := by
  rw [List.getD_eq_getElem l _ ha, List.getD_eq_getElem l _ hb]
  intro he
  apply hab
  have h1 : l.get ⟨a, ha⟩ = l.get ⟨b, hb⟩ := by
    simpa [List.get_eq_getElem] using he
  exact congrArg Fin.val ((List.Nodup.get_inj_iff h).mp h1)

theorem mod_ne_of_div_eq_of_ne {i j c : Nat} (hd : i / c = j / c) (hij : i ≠ j) :
    i % c ≠ j % c := by
  intro hm
  apply hij
  have h1 := Nat.div_add_mod i c
  have h2 := Nat.div_add_mod j c
  rw [hd, hm] at h1
  exact h1.symm.trans h2

theorem generateMatches_get_eq (names : List String) (h2 : 2 ≤ names.length) (i : Nat)
    (hi : i < (generateMatches names).length) :
    (generateMatches names).get ⟨i, hi⟩ =
      { homeTeam := (rotatedForRound names (i / (names.length / 2) + 1)).getD
          (i % (names.length / 2)) "",
        awayTeam := (rotatedForRound names (i / (names.length / 2) + 1)).getD
          (names.length - 1 - i % (names.length / 2)) "",
        homeGoals := 0, awayGoals := 0, played := false,
        matchNumber := i + 1,
        roundNumber := i / (names.length / 2) + 1,
        groupName := "" } := by
  have hne : names ≠ [] := fun hnil => by rw [hnil] at h2; simp at h2
  have hi2 : i < maxRounds names.length * (names.length / 2) := by
    rwa [generateMatches_length names hne] at hi
  have h := generateMatches_getElem? names h2 i hi2
  rw [List.getElem?_eq_getElem hi] at h
  rw [List.get_eq_getElem]
  exact Option.some.inj h

theorem generateMatches_get_matchNumber (names : List String) (h2 : 2 ≤ names.length)
    (i : Nat) (hi : i < (generateMatches names).length) :
    ((generateMatches names).get ⟨i, hi⟩).matchNumber = i + 1 := by
  rw [generateMatches_get_eq names h2 i hi]

theorem generateMatches_get_roundNumber (names : List String) (h2 : 2 ≤ names.length)
    (i : Nat) (hi : i < (generateMatches names).length) :
    ((generateMatches names).get ⟨i, hi⟩).roundNumber = i / (names.length / 2) + 1 := by
  rw [generateMatches_get_eq names h2 i hi]

theorem generateMatches_get_homeTeam (names : List String) (h2 : 2 ≤ names.length)
    (i : Nat) (hi : i < (generateMatches names).length) :
    ((generateMatches names).get ⟨i, hi⟩).homeTeam =
      (rotatedForRound names (i / (names.length / 2) + 1)).getD
        (i % (names.length / 2)) "" := by
  rw [generateMatches_get_eq names h2 i hi]

theorem generateMatches_get_awayTeam (names : List String) (h2 : 2 ≤ names.length)
    (i : Nat) (hi : i < (generateMatches names).length) :
    ((generateMatches names).get ⟨i, hi⟩).awayTeam =
      (rotatedForRound names (i / (names.length / 2) + 1)).getD
        (names.length - 1 - i % (names.length / 2)) "" := by
  rw [generateMatches_get_eq names h2 i hi]

/-- Claim C5: for every deduplicated team list of size at least 2 the
scheduler emits exactly maxRounds N * (N / 2) matches, numbered sequentially
from 1; every match belongs to a round between 1 and maxRounds N and its
home/away pair is one of the pairs of that round; and two distinct matches
of the same round share no team name. -/
theorem generateMatches_spec (names : List String) (h2 : 2 ≤ names.length)
    (hnd : names.Nodup) :
    (generateMatches names).length = maxRounds names.length * (names.length / 2) ∧
    (∀ i (hi : i < (generateMatches names).length),
      ((generateMatches names).get ⟨i, hi⟩).matchNumber = i + 1) ∧
    (∀ i (hi : i < (generateMatches names).length),
      1 ≤ ((generateMatches names).get ⟨i, hi⟩).roundNumber ∧
      ((generateMatches names).get ⟨i, hi⟩).roundNumber ≤ maxRounds names.length ∧
      (((generateMatches names).get ⟨i, hi⟩).homeTeam,
        ((generateMatches names).get ⟨i, hi⟩).awayTeam) ∈
          roundMatchesFor names (((generateMatches names).get ⟨i, hi⟩).roundNumber)) ∧
    (∀ i j (hi : i < (generateMatches names).length)
        (hj : j < (generateMatches names).length), i ≠ j →
      ((generateMatches names).get ⟨i, hi⟩).roundNumber =
        ((generateMatches names).get ⟨j, hj⟩).roundNumber →
      ((generateMatches names).get ⟨i, hi⟩).homeTeam ≠
        ((generateMatches names).get ⟨j, hj⟩).homeTeam ∧
      ((generateMatches names).get ⟨i, hi⟩).homeTeam ≠
        ((generateMatches names).get ⟨j, hj⟩).awayTeam ∧
      ((generateMatches names).get ⟨i, hi⟩).awayTeam ≠
        ((generateMatches names).get ⟨j, hj⟩).homeTeam ∧
      ((generateMatches names).get ⟨i, hi⟩).awayTeam ≠
        ((generateMatches names).get ⟨j, hj⟩).awayTeam) := by
  have hne : names ≠ [] := fun hnil => by rw [hnil] at h2; simp at h2
  have hc : 0 < names.length / 2 := by omega
  refine ⟨generateMatches_length names hne, generateMatches_get_matchNumber names h2,
    fun i hi => ?_, fun i j hi hj hij hr => ?_⟩
  · have hi2 : i < maxRounds names.length * (names.length / 2) := by
      rwa [generateMatches_length names hne] at hi
    have hdiv : i / (names.length / 2) < maxRounds names.length :=
      (Nat.div_lt_iff_lt_mul hc).mpr hi2
    refine ⟨?_, ?_, ?_⟩
    · rw [generateMatches_get_roundNumber names h2 i hi]
      exact Nat.le_add_left 1 _
    · rw [generateMatches_get_roundNumber names h2 i hi]; exact hdiv
    · rw [generateMatches_get_roundNumber names h2 i hi,
        generateMatches_get_homeTeam names h2 i hi,
        generateMatches_get_awayTeam names h2 i hi]
      apply List.get?_mem
      rw [List.get?_eq_getElem?]
      exact roundMatchesFor_getElem? names hne _ _ (Nat.mod_lt i hc)
  · rw [generateMatches_get_roundNumber names h2 i hi,
      generateMatches_get_roundNumber names h2 j hj] at hr
    have hd : i / (names.length / 2) = j / (names.length / 2) := by omega
    have hm : i % (names.length / 2) ≠ j % (names.length / 2) :=
      mod_ne_of_div_eq_of_ne hd hij
    have hpi : i % (names.length / 2) < names.length / 2 := Nat.mod_lt i hc
    have hpj : j % (names.length / 2) < names.length / 2 := Nat.mod_lt j hc
    have hrnd : (rotatedForRound names (i / (names.length / 2) + 1)).Nodup :=
      nodup_rotatedForRound names hne hnd _
    have hlen : (rotatedForRound names (i / (names.length / 2) + 1)).length
        = names.length := length_rotatedForRound names hne _
    rw [generateMatches_get_homeTeam names h2 i hi,
      generateMatches_get_awayTeam names h2 i hi,
      generateMatches_get_homeTeam names h2 j hj,
      generateMatches_get_awayTeam names h2 j hj, ← hd]
    refine ⟨getD_ne_of_nodup hrnd (by omega) (by omega) (by omega),
      getD_ne_of_nodup hrnd (by omega) (by omega) (by omega),
      getD_ne_of_nodup hrnd (by omega) (by omega) (by omega),
      getD_ne_of_nodup hrnd (by omega) (by omega) (by omega)⟩

/-- Witness for Claim C5 at the concrete input of three team names. -/
theorem generateMatches_spec_witness :
    (2 ≤ (["A", "B", "C"] : List String).length ∧
      (["A", "B", "C"] : List String).Nodup) ∧
    (generateMatches ["A", "B", "C"]).length =
      maxRounds (["A", "B", "C"] : List String).length *
        ((["A", "B", "C"] : List String).length / 2) :=
  ⟨⟨by decide, by decide⟩,
    (generateMatches_spec ["A", "B", "C"] (by decide) (by decide)).1⟩

/-- Claim C1: for the four-team input the schedule does have 3 rounds,
6 matches and 3 appearances per team, but the pairing rotation is faulty:
A meets D twice and never meets C, and B meets C twice and never meets D,
so the round-robin property (each unordered pair meets exactly once) fails
even though the code comments promise unique pairings each round. -/
theorem generateMatches_ABCD_missing_pairs :
    (generateMatches ["A", "B", "C", "D"]).length = 6 ∧
    maxRounds 4 = 3 ∧
    teamMatchCount (generateMatches ["A", "B", "C", "D"]) "A" = 3 ∧
    teamMatchCount (generateMatches ["A", "B", "C", "D"]) "B" = 3 ∧
    teamMatchCount (generateMatches ["A", "B", "C", "D"]) "C" = 3 ∧
    teamMatchCount (generateMatches ["A", "B", "C", "D"]) "D" = 3 ∧
    pairMeetCount (generateMatches ["A", "B", "C", "D"]) "A" "C" = 0 ∧
    pairMeetCount (generateMatches ["A", "B", "C", "D"]) "B" "D" = 0 ∧
    pairMeetCount (generateMatches ["A", "B", "C", "D"]) "A" "D" = 2 ∧
    pairMeetCount (generateMatches ["A", "B", "C", "D"]) "B" "C" = 2 := by
  decide

/- ----------------------------------------------------------------- -/
/- Structural lemmas about the standings engine                       -/
/- ----------------------------------------------------------------- -/

theorem resetTeam_updHome (m : MatchRec) (t : Team) :
    resetTeam (updHome m t) = resetTeam t := rfl

theorem resetTeam_updAway (m : MatchRec) (t : Team) :
    resetTeam (updAway m t) = resetTeam t := rfl

theorem resetTeam_resetTeam (t : Team) : resetTeam (resetTeam t) = resetTeam t := rfl

theorem updateFirst_map_reset (nm : String) (f : Team → Team)
    (hf : ∀ t, resetTeam (f t) = resetTeam t) :
    ∀ ts : List Team, (updateFirst nm f ts).map resetTeam = ts.map resetTeam := by
  intro ts
  induction ts with
  | nil => rfl
  | cons x xs ih =>
      rw [updateFirst]
      by_cases hx : x.name = nm
      · rw [if_pos hx, List.map_cons, List.map_cons, hf]
      · rw [if_neg hx, List.map_cons, List.map_cons, ih]

theorem applyMatch_map_reset (ts : List Team) (m : MatchRec) :
    (applyMatch ts m).map resetTeam = ts.map resetTeam := by
  unfold applyMatch
  split
  · rw [updateFirst_map_reset _ _ (resetTeam_updAway m),
      updateFirst_map_reset _ _ (resetTeam_updHome m)]
  · rfl

theorem foldl_applyMatch_map_reset :
    ∀ (ms : List MatchRec) (ts : List Team),
      (ms.foldl applyMatch ts).map resetTeam = ts.map resetTeam := by
  intro ms
  induction ms with
  | nil => intro ts; rfl
  | cons m ms ih => intro ts; rw [List.foldl_cons, ih, applyMatch_map_reset]

/-- The recomputation reads its team argument only through the reset
projection: recomputing from an already computed table gives the same
result as recomputing from the original team list. -/
theorem recalcTable_recalcTable (teams : List Team) (ms1 ms2 : List MatchRec) :
    recalcTable (recalcTable teams ms1) ms2 = recalcTable teams ms2 := by
  unfold recalcTable
  rw [foldl_applyMatch_map_reset ms1 (teams.map resetTeam), List.map_map]
  have h : resetTeam ∘ resetTeam = resetTeam := funext resetTeam_resetTeam
  rw [h]

theorem recalculateStandings_teams (now : Int) (lg : League) :
    (recalculateStandings now lg).teams = recalcTable lg.teams lg.matchList := by
  unfold recalculateStandings
  dsimp only
  repeat' split
  all_goals rfl

theorem recalculateStandings_matchList (now : Int) (lg : League) :
    (recalculateStandings now lg).matchList = lg.matchList := by
  unfold recalculateStandings
  dsimp only
  repeat' split
  all_goals rfl

theorem recalculateStandings_previousWinners (now : Int) (lg : League) :
    (recalculateStandings now lg).previousWinners = lg.previousWinners := by
  unfold recalculateStandings
  dsimp only
  repeat' split
  all_goals rfl

/-- Claim C2: the standings recomputation is idempotent and history
independent: recomputing twice gives the same table as recomputing once
(for the full operation and for the table computation on any inputs), and
after A 2-1 B is corrected to A 1-1 B the recomputed table shows exactly
one draw and no win for each side, because every run resets the counters
before folding the match list. -/
theorem recalculateStandings_idempotent (now1 now2 : Int) (lg : League)
    (teams : List Team) (ms1 ms2 : List MatchRec) :
    (recalculateStandings now2 (recalculateStandings now1 lg)).teams
      = (recalculateStandings now1 lg).teams ∧
    recalcTable (recalcTable teams ms1) ms2 = recalcTable teams ms2 ∧
    recalcTable (recalcTable [mkTeam "A" "", mkTeam "B" ""]
        [mkMatch "A" "B" 2 1 true 1 1]) [mkMatch "A" "B" 1 1 true 1 1]
      = [{ mkTeam "A" "" with
           played := 1, drawn := 1, goalsFor := 1, goalsAgainst := 1, points := 1 },
         { mkTeam "B" "" with
           played := 1, drawn := 1, goalsFor := 1, goalsAgainst := 1, points := 1 }] := by
  refine ⟨?_, recalcTable_recalcTable teams ms1 ms2, by decide⟩
  rw [recalculateStandings_teams now2, recalculateStandings_teams now1,
    recalculateStandings_matchList now1, recalcTable_recalcTable]

theorem standInv_resetTeam (t : Team) : standInv (resetTeam t) := by
  simp [standInv, resetTeam]

theorem standInv_updHome (m : MatchRec) (t : Team) (h : standInv t) :
    standInv (updHome m t) := by
  obtain ⟨h1, h2⟩ := h
  refine ⟨?_, ?_⟩
  · simp only [updHome]
    split_ifs <;> omega
  · simp [updHome]

theorem standInv_updAway (m : MatchRec) (t : Team) (h : standInv t) :
    standInv (updAway m t) := by
  obtain ⟨h1, h2⟩ := h
  refine ⟨?_, ?_⟩
  · simp only [updAway]
    split_ifs <;> omega
  · simp [updAway]

theorem updateFirst_forall {P : Team → Prop} (nm : String) (f : Team → Team)
    (hf : ∀ t, P t → P (f t)) :
    ∀ ts : List Team, (∀ t ∈ ts, P t) → ∀ t ∈ updateFirst nm f ts, P t := by
  intro ts
  induction ts with
  | nil => intro _ t ht; simp [updateFirst] at ht
  | cons x xs ih =>
      intro h t ht
      rw [updateFirst] at ht
      by_cases hx : x.name = nm
      · rw [if_pos hx] at ht
        rcases List.mem_cons.mp ht with h1 | h2
        · exact h1 ▸ hf x (h x (by simp))
        · exact h t (by simp [h2])
      · rw [if_neg hx] at ht
        rcases List.mem_cons.mp ht with h1 | h2
        · exact h1 ▸ h x (by simp)
        · exact ih (fun u hu => h u (by simp [hu])) t h2

theorem applyMatch_forall {P : Team → Prop}
    (hHome : ∀ m t, P t → P (updHome m t)) (hAway : ∀ m t, P t → P (updAway m t))
    (ts : List Team) (m : MatchRec) (h : ∀ t ∈ ts, P t) :
    ∀ t ∈ applyMatch ts m, P t := by
  unfold applyMatch
  split
  · exact updateFirst_forall _ _ (hAway m) _ (updateFirst_forall _ _ (hHome m) _ h)
  · exact h

theorem foldl_applyMatch_forall {P : Team → Prop}
    (hHome : ∀ m t, P t → P (updHome m t)) (hAway : ∀ m t, P t → P (updAway m t)) :
    ∀ (ms : List MatchRec) (ts : List Team), (∀ t ∈ ts, P t) →
      ∀ t ∈ ms.foldl applyMatch ts, P t := by
  intro ms
  induction ms with
  | nil => intro ts h; simpa using h
  | cons m ms ih => intro ts h; exact ih _ (applyMatch_forall hHome hAway ts m h)

/-- Claim C6: every row of a recomputed table satisfies
points = 3 * won + drawn and goalDifference = goalsFor - goalsAgainst. -/
theorem recalcTable_standInv (teams : List Team) (ms : List MatchRec) (t : Team)
    (ht : t ∈ recalcTable teams ms) :
    t.points = 3 * t.won + t.drawn ∧
    t.goalDifference = (t.goalsFor : Int) - (t.goalsAgainst : Int) := by
  have hbase : ∀ u ∈ teams.map resetTeam, standInv u := by
    intro u hu
    obtain ⟨v, _, rfl⟩ := List.mem_map.mp hu
    exact standInv_resetTeam v
  exact foldl_applyMatch_forall standInv_updHome standInv_updAway ms
    (teams.map resetTeam) hbase t ht

/-- Witness for Claim C6 on the recomputed table of the concrete league. -/
theorem recalcTable_standInv_witness :
    rowA ∈ recalcTable lgClinch.teams lgClinch.matchList ∧
    (rowA.points = 3 * rowA.won + rowA.drawn ∧
     rowA.goalDifference = (rowA.goalsFor : Int) - (rowA.goalsAgainst : Int)) :=
  ⟨by decide, recalcTable_standInv lgClinch.teams lgClinch.matchList rowA (by decide)⟩

/- ----------------------------------------------------------------- -/
/- WinnerResolver and operation-level theorems                        -/
/- ----------------------------------------------------------------- -/

/-- Claim C3: the clinch crowning fires exactly under the listed
conditions.  If the league is active with a defined, at least 95% played
match ratio, at least two (sorted) standings rows, no winner yet and a
leader out of reach of second place even if every remaining match were won,
the leader is crowned; if any of these fails the recomputation only
replaces the table. -/
theorem recalculateStandings_clinch (now : Int) (lg : League) :
    (lg.status = LeagueStatus.active →
     0 < lg.matchList.length →
     95 * lg.matchList.length ≤ 100 * (lg.matchList.filter fun m => m.played).length →
     2 ≤ (sortTeams (recalcTable lg.teams lg.matchList)).length →
     lg.winner.teamName = "" →
     ((sortTeams (recalcTable lg.teams lg.matchList)).getD 1 defaultTeam).points
         + (lg.matchList.length - (lg.matchList.filter fun m => m.played).length) * 3
       < ((sortTeams (recalcTable lg.teams lg.matchList)).getD 0 defaultTeam).points →
     recalculateStandings now lg = { lg with
       teams := recalcTable lg.teams lg.matchList,
       winner :=
         { teamName :=
             ((sortTeams (recalcTable lg.teams lg.matchList)).getD 0 defaultTeam).name,
           userId := ((lg.participants.find? fun p => p.teamName ==
               ((sortTeams (recalcTable lg.teams lg.matchList)).getD 0 defaultTeam).name).map
                 fun p => p.userId),
           teamLogo := orElseStr
             ((sortTeams (recalcTable lg.teams lg.matchList)).getD 0 defaultTeam).logo
             (((lg.participants.find? fun p => p.teamName ==
                 ((sortTeams (recalcTable lg.teams lg.matchList)).getD 0 defaultTeam).name).map
                   fun p => p.teamLogoUrl).getD ""),
           awardedAt := some now },
       isCelebrating := true,
       celebrationEnds := some (now + 259200000),
       status := LeagueStatus.completed }) ∧
    (¬(lg.status = LeagueStatus.active ∧ 0 < lg.matchList.length ∧
        95 * lg.matchList.length ≤ 100 * (lg.matchList.filter fun m => m.played).length ∧
        2 ≤ (sortTeams (recalcTable lg.teams lg.matchList)).length ∧
        lg.winner.teamName = "" ∧
        ((sortTeams (recalcTable lg.teams lg.matchList)).getD 1 defaultTeam).points
            + (lg.matchList.length - (lg.matchList.filter fun m => m.played).length) * 3
          < ((sortTeams (recalcTable lg.teams lg.matchList)).getD 0 defaultTeam).points) →
     recalculateStandings now lg = { lg with teams := recalcTable lg.teams lg.matchList }) := by
  constructor
  · intro hstat htot hperc hlen hwin hpts
    unfold recalculateStandings
    dsimp only
    rw [if_pos ⟨htot, hperc, hstat⟩, if_pos hlen, if_pos ⟨hpts, hwin⟩]
  · intro hneg
    unfold recalculateStandings
    dsimp only
    by_cases h1 : 0 < lg.matchList.length ∧
        95 * lg.matchList.length ≤ 100 * (lg.matchList.filter fun m => m.played).length ∧
        lg.status = LeagueStatus.active
    · rw [if_pos h1]
      by_cases h2 : 2 ≤ (sortTeams (recalcTable lg.teams lg.matchList)).length
      · rw [if_pos h2]
        by_cases h3 :
            ((sortTeams (recalcTable lg.teams lg.matchList)).getD 1 defaultTeam).points
                + (lg.matchList.length - (lg.matchList.filter fun m => m.played).length) * 3
              < ((sortTeams (recalcTable lg.teams lg.matchList)).getD 0 defaultTeam).points
              ∧ lg.winner.teamName = ""
        · exact absurd ⟨h1.2.2, h1.1, h1.2.1, h2, h3.2, h3.1⟩ hneg
        · rw [if_neg h3]
      · rw [if_neg h2]
    · rw [if_neg h1]

/-- Witness for Claim C3: the two-team league with its only match played
1-0 is clinched and team A is crowned. -/
theorem recalculateStandings_clinch_witness :
    (recalculateStandings 0 lgClinch).winner.teamName = "A" ∧
    (recalculateStandings 0 lgClinch).status = LeagueStatus.completed := by
  have h := (recalculateStandings_clinch 0 lgClinch).1 (by decide) (by decide)
    (by decide) (by decide) (by decide) (by decide)
  rw [h]
  exact ⟨by decide, by decide⟩

/-- Counterexample to Claim C4: the automatic clinch path crowns team A
(winner set, status completed) yet appends nothing to previousWinners,
while the claim says both crowning paths append a season-tagged record. -/
theorem clinch_appends_no_history :
    (recalculateStandings 0 lgClinch).winner.teamName = "A" ∧
    (recalculateStandings 0 lgClinch).status = LeagueStatus.completed ∧
    lgClinch.previousWinners = [] ∧
    (recalculateStandings 0 lgClinch).previousWinners = [] := by decide

/-- Claim C4 (amended): both crowning paths set the winner record with the
crowning timestamp, start a 3-day celebration and mark the league
completed, but only the manual override appends a season-tagged
previousWinners record; the automatic clinch path leaves previousWinners
unchanged. -/
theorem crowning_effects (now : Int) (lg lg2 : League) (tn tl : String) :
    (recalculateStandings now lg ≠ { lg with teams := recalcTable lg.teams lg.matchList } →
      (recalculateStandings now lg).status = LeagueStatus.completed ∧
      (recalculateStandings now lg).isCelebrating = true ∧
      (recalculateStandings now lg).celebrationEnds = some (now + 259200000) ∧
      (recalculateStandings now lg).winner.awardedAt = some now ∧
      (recalculateStandings now lg).previousWinners = lg.previousWinners) ∧
    (setLeagueWinnerOp now lg tn tl = Except.ok lg2 →
      lg2.status = LeagueStatus.completed ∧
      lg2.isCelebrating = true ∧
      lg2.celebrationEnds = some (now + 259200000) ∧
      lg2.winner.teamName = tn ∧
      lg2.winner.awardedAt = some now ∧
      lg2.previousWinners = lg.previousWinners ++
        [{ teamName := tn, userId := lg2.winner.userId,
           teamLogo := lg2.winner.teamLogo, awardedAt := some now,
           season := seasonLabel lg }]) := by
  constructor
  · intro hne
    unfold recalculateStandings at hne ⊢
    dsimp only at hne ⊢
    by_cases h1 : 0 < lg.matchList.length ∧
        95 * lg.matchList.length ≤ 100 * (lg.matchList.filter fun m => m.played).length ∧
        lg.status = LeagueStatus.active
    · rw [if_pos h1] at hne ⊢
      by_cases h2 : 2 ≤ (sortTeams (recalcTable lg.teams lg.matchList)).length
      · rw [if_pos h2] at hne ⊢
        by_cases h3 :
            ((sortTeams (recalcTable lg.teams lg.matchList)).getD 1 defaultTeam).points
                + (lg.matchList.length - (lg.matchList.filter fun m => m.played).length) * 3
              < ((sortTeams (recalcTable lg.teams lg.matchList)).getD 0 defaultTeam).points
              ∧ lg.winner.teamName = ""
        · rw [if_pos h3]
          exact ⟨rfl, rfl, rfl, rfl, rfl⟩
        · rw [if_neg h3] at hne
          exact absurd rfl hne
      · rw [if_neg h2] at hne
        exact absurd rfl hne
    · rw [if_neg h1] at hne
      exact absurd rfl hne
  · intro hok
    unfold setLeagueWinnerOp at hok
    rcases hfind : lg.participants.find? fun p => p.teamName == tn with _ | wp
    · rw [hfind] at hok
      simp at hok
    · rw [hfind] at hok
      dsimp only at hok
      have h2 := Except.ok.inj hok
      rw [← h2]
      exact ⟨rfl, rfl, rfl, rfl, rfl, rfl⟩

/-- Witness for the amended Claim C4 at the concrete league: the clinch run
leaves the history empty and the manual override appends one record. -/
theorem crowning_effects_witness :
    (recalculateStandings 0 lgClinch).previousWinners = lgClinch.previousWinners ∧
    lgManualOut.previousWinners = lgClinch.previousWinners ++
      [{ teamName := "A", userId := lgManualOut.winner.userId,
         teamLogo := lgManualOut.winner.teamLogo, awardedAt := some 0,
         season := seasonLabel lgClinch }] :=
  ⟨((crowning_effects 0 lgClinch lgManualOut "A" "").1 (by decide)).2.2.2.2,
   ((crowning_effects 0 lgClinch lgManualOut "A" "").2 rfl).2.2.2.2.2⟩

/-- Counterexample to Claim C7: a draft league that already carries a
fixture list (the persisted state of a scheduled league before its start
date) is rescheduled successfully instead of failing: the controller checks
only the status, not whether matches exist. -/
theorem generateMatchesOp_reschedules :
    lgDraftScheduled.matchList ≠ [] ∧
    (generateMatchesOp lgDraftScheduled).isOk = true := by decide

/-- Claim C7 (amended): generation fails with the already-started error
exactly when the status is not draft (checked first), then with
InsufficientParticipants exactly when fewer than two approved participants
exist; otherwise it succeeds, replacing teams and matches and activating
the league.  Both failures return before any mutation. -/
theorem generateMatchesOp_spec (lg : League) :
    (lg.status ≠ LeagueStatus.draft →
      generateMatchesOp lg = Except.error GenError.leagueStarted) ∧
    (lg.status = LeagueStatus.draft →
      (lg.participants.filter fun p => p.status == PStatus.approved).length < 2 →
      generateMatchesOp lg = Except.error GenError.insufficientParticipants) ∧
    (lg.status = LeagueStatus.draft →
      2 ≤ (lg.participants.filter fun p => p.status == PStatus.approved).length →
      generateMatchesOp lg = Except.ok { lg with
        teams := (lg.participants.filter fun p =>
          p.status == PStatus.approved).map teamOfParticipant,
        matchList := generateMatches (((lg.participants.filter fun p =>
          p.status == PStatus.approved).map teamOfParticipant).map fun t => t.name),
        status := LeagueStatus.active }) := by
  refine ⟨fun h => ?_, fun h1 h2 => ?_, fun h1 h2 => ?_⟩
  · unfold generateMatchesOp
    rw [if_pos h]
  · unfold generateMatchesOp
    dsimp only
    rw [if_neg (fun hc => hc h1), if_pos h2]
  · unfold generateMatchesOp
    dsimp only
    rw [if_neg (fun hc => hc h1), if_neg (Nat.not_lt.mpr h2)]

/-- Witness for the amended Claim C7: the concrete draft league succeeds
and an active league is refused. -/
theorem generateMatchesOp_spec_witness :
    (lgDraftScheduled.status = LeagueStatus.draft ∧
      2 ≤ (lgDraftScheduled.participants.filter fun p =>
        p.status == PStatus.approved).length ∧
      lgClinch.status ≠ LeagueStatus.draft) ∧
    ((generateMatchesOp lgDraftScheduled).isOk = true ∧
      generateMatchesOp lgClinch = Except.error GenError.leagueStarted) := by
  have h1 := (generateMatchesOp_spec lgDraftScheduled).2.2 (by decide) (by decide)
  have h2 := (generateMatchesOp_spec lgClinch).1 (by decide)
  exact ⟨⟨by decide, by decide, by decide⟩, ⟨by rw [h1]; rfl, h2⟩⟩

/-- Claim C8: a negative goal value is rejected as a validation error
before any lookup or mutation, and the stored league is untouched. -/
theorem updateMatchResultOp_rejects_negative (now : Int) (lg : League) (num : Nat)
    (hg ag : Int) (h : hg < 0 ∨ ag < 0) :
    updateMatchResultOp now lg num hg ag = Except.error UpdError.invalidGoals ∧
    dbAfterUpdate now lg num hg ag = lg := by
  have h1 : updateMatchResultOp now lg num hg ag = Except.error UpdError.invalidGoals := by
    unfold updateMatchResultOp
    rw [if_pos h]
  refine ⟨h1, ?_⟩
  unfold dbAfterUpdate
  rw [h1]

/-- Witness for Claim C8: homeGoals -1 on the concrete league. -/
theorem updateMatchResultOp_rejects_negative_witness :
    ((-1 : Int) < 0 ∨ (0 : Int) < 0) ∧
    (updateMatchResultOp 0 lgClinch 1 (-1) 0 = Except.error UpdError.invalidGoals ∧
     dbAfterUpdate 0 lgClinch 1 (-1) 0 = lgClinch) :=
  ⟨Or.inl (by decide),
   updateMatchResultOp_rejects_negative 0 lgClinch 1 (-1) 0 (Or.inl (by decide))⟩

/-- Counterexample to Claim C9: a completed-marked league with matches,
saved before its start date (and so before its end date has passed), is
reset to draft, not to active. -/
theorem saveLeague_completed_to_draft :
    lgCompletedEarly.status = LeagueStatus.completed ∧
    lgCompletedEarly.matchList ≠ [] ∧
    (50 : Int) ≤ lgCompletedEarly.endDate.time ∧
    (saveLeague 50 lgCompletedEarly).status = LeagueStatus.draft := by decide

/-- Claim C9 (amended): every save re-derives the status from the dates
alone - draft without matches, otherwise draft before startDate, active
between the dates inclusive, completed after endDate - independently of the
status the operation wrote; in particular a completed status written by a
crowning path is overwritten to active by a save between startDate and
endDate (and to draft by a save before startDate). -/
theorem saveLeague_status_spec (now : Int) (lg : League) :
    (saveLeague now lg).status = derivedStatus now lg ∧
    (∀ s, (saveLeague now { lg with status := s }).status = derivedStatus now lg) ∧
    (lg.matchList ≠ [] → lg.startDate.time ≤ now → now ≤ lg.endDate.time →
      (saveLeague now { lg with status := LeagueStatus.completed }).status
        = LeagueStatus.active) := by
  have hall : ∀ lg2 : League, (saveLeague now lg2).status = derivedStatus now lg2 := by
    intro lg2
    unfold saveLeague
    dsimp only
    repeat' split
    all_goals rfl
  refine ⟨hall lg, fun s => ?_, fun hm hs he => ?_⟩
  · rw [hall { lg with status := s }]
    rfl
  · rw [hall { lg with status := LeagueStatus.completed }]
    show derivedStatus now lg = LeagueStatus.active
    unfold derivedStatus
    rw [if_neg (by simp [hm]), if_neg (by omega), if_pos (by omega)]

/-- Witness for the amended Claim C9: a save inside the league window turns
a completed status back into active. -/
theorem saveLeague_status_spec_witness :
    (lgDraftScheduled.matchList ≠ [] ∧
      lgDraftScheduled.startDate.time ≤ 150 ∧ (150 : Int) ≤ lgDraftScheduled.endDate.time) ∧
    (saveLeague 150 { lgDraftScheduled with status := LeagueStatus.completed }).status
      = LeagueStatus.active :=
  ⟨⟨by decide, by decide, by decide⟩,
   (saveLeague_status_spec 150 lgDraftScheduled).2.2 (by decide) (by decide) (by decide)⟩

theorem insertTeam_length (t : Team) : ∀ ts : List Team,
    (insertTeam t ts).length = ts.length + 1 := by
  intro ts
  induction ts with
  | nil => rfl
  | cons x xs ih =>
      rw [insertTeam]
      split
      · rw [List.length_cons, ih, List.length_cons]
      · rfl

theorem sortTeams_length : ∀ ts : List Team, (sortTeams ts).length = ts.length := by
  intro ts
  induction ts with
  | nil => rfl
  | cons x xs ih => rw [sortTeams, insertTeam_length, ih, List.length_cons]

/-- Claim C10: the pre-save hook crowns on its own, purely date-driven,
path: when the derived status is completed, no winner is set and the
best-ranked stored team has positive points, that team is crowned with a
3-day celebration and a season-tagged history entry; a leader with zero
points is never crowned by this path. -/
theorem saveLeague_autocrown (now : Int) (lg : League) :
    (derivedStatus now lg = LeagueStatus.completed →
     lg.winner.teamName = "" →
     lg.teams ≠ [] →
     0 < ((sortTeams lg.teams).getD 0 defaultTeam).points →
     (saveLeague now lg).winner =
       { teamName := ((sortTeams lg.teams).getD 0 defaultTeam).name,
         userId := ((lg.participants.find? fun p =>
             p.teamName == ((sortTeams lg.teams).getD 0 defaultTeam).name).map
               fun p => p.userId),
         teamLogo := orElseStr ((sortTeams lg.teams).getD 0 defaultTeam).logo
           (((lg.participants.find? fun p =>
               p.teamName == ((sortTeams lg.teams).getD 0 defaultTeam).name).map
                 fun p => p.teamLogoUrl).getD ""),
         awardedAt := some now } ∧
     (saveLeague now lg).isCelebrating = true ∧
     (saveLeague now lg).celebrationEnds = some (now + 259200000) ∧
     (saveLeague now lg).previousWinners = lg.previousWinners ++
       [{ teamName := ((sortTeams lg.teams).getD 0 defaultTeam).name,
          userId := ((lg.participants.find? fun p =>
              p.teamName == ((sortTeams lg.teams).getD 0 defaultTeam).name).map
                fun p => p.userId),
          teamLogo := orElseStr ((sortTeams lg.teams).getD 0 defaultTeam).logo
            (((lg.participants.find? fun p =>
                p.teamName == ((sortTeams lg.teams).getD 0 defaultTeam).name).map
                  fun p => p.teamLogoUrl).getD ""),
          awardedAt := some now, season := seasonLabel lg }]) ∧
    (((sortTeams lg.teams).getD 0 defaultTeam).points = 0 →
     (saveLeague now lg).winner = lg.winner ∧
     (saveLeague now lg).previousWinners = lg.previousWinners) := by
  constructor
  · intro hds hwin hts hpts
    simp only [saveLeague]
    have hc1 : derivedStatus now lg = LeagueStatus.completed ∧
        lg.winner.teamName = "" ∧ lg.teams ≠ [] := ⟨hds, hwin, hts⟩
    have hc2 : 0 < (sortTeams lg.teams).length ∧
        0 < ((sortTeams lg.teams).getD 0 defaultTeam).points := by
      refine ⟨?_, hpts⟩
      rw [sortTeams_length]
      exact List.length_pos.mpr hts
    rw [if_pos hc1, if_pos hc2, if_neg (by simp)]
    exact ⟨rfl, rfl, rfl, rfl⟩
  · intro h0
    simp only [saveLeague]
    by_cases hcond : derivedStatus now lg = LeagueStatus.completed ∧
        lg.winner.teamName = "" ∧ lg.teams ≠ []
    · have hc2 : ¬(0 < (sortTeams lg.teams).length ∧
          0 < ((sortTeams lg.teams).getD 0 defaultTeam).points) := by
        intro hc
        rw [h0] at hc
        exact Nat.lt_irrefl 0 hc.2
      rw [if_pos hcond, if_neg hc2]
      constructor <;> (repeat' split) <;> rfl
    · rw [if_neg hcond]
      constructor <;> (repeat' split) <;> rfl

/-- Witness for Claim C10: saving the season-over league at time 20 crowns
team A through the hook path and appends one history record. -/
theorem saveLeague_autocrown_witness :
    (saveLeague 20 lgSeasonOver).winner.teamName = "A" ∧
    (saveLeague 20 lgSeasonOver).previousWinners.length = 1 := by
  have h := (saveLeague_autocrown 20 lgSeasonOver).1 (by decide) (by decide)
    (by decide) (by decide)
  refine ⟨?_, ?_⟩
  · rw [h.1]
    decide
  · rw [h.2.2.2]
    decide
